import Mathlib

/-!
Verification development for the MCPPoc service-registry / message-routing
repository.  The Python sources under `registry-service`, `mcp-server-1`,
`mcp-server-2` and `common` are shallowly embedded below:
pure request handlers become Lean functions, the in-memory registry store
(a Python `dict` keyed by service id) becomes an insertion-ordered
association list, wall-clock reads (`datetime.now()`) and generated uuids
(`uuid.uuid4()`) become explicit parameters, and network / LLM calls become
function parameters (the code around them is embedded faithfully).
JSON-ish dynamic dictionaries exchanged between components are embedded as
the `JVal` type.
-/

set_option autoImplicit false

/-- JSON-like dynamic value, embedding the Python dict/list/str/int/bool/None
payloads that the services exchange.  Numbers are embedded as `Int` (the
repository only ever builds integer or `0.0` literals). -/
inductive JVal where
  | null
  | bool (b : Bool)
  | str (s : String)
  | num (n : Int)
  | arr (xs : List JVal)
  | obj (kvs : List (String × JVal))

/-- Insertion-ordered association-list lookup: Python `dict.get` /
`dict[k]` (first matching key; Python dicts have unique keys). -/
def aGet? {α : Type} : List (String × α) → String → Option α
  | [], _ => none
  | (k, v) :: m, k' => if k = k' then some v else aGet? m k'

/-- Python `k in d`. -/
def aHas {α : Type} (m : List (String × α)) (k : String) : Bool :=
  (aGet? m k).isSome

/-- Replace the value at an existing key, keeping its position
(Python `d[k] = v` when `k in d`). -/
def aSetIn {α : Type} : List (String × α) → String → α → List (String × α)
  | [], _, _ => []
  | (k0, v0) :: m, k, v =>
    if k0 = k then (k, v) :: aSetIn m k v else (k0, v0) :: aSetIn m k v

/-- Python `d[k] = v`: update in place when the key exists, else append
(Python dicts preserve insertion order). -/
def aSet {α : Type} (m : List (String × α)) (k : String) (v : α) :
    List (String × α) :=
  if aHas m k then aSetIn m k v else m ++ [(k, v)]

/-- Python `del d[k]` (the callers only delete keys they checked exist). -/
def aDel {α : Type} : List (String × α) → String → List (String × α)
  | [], _ => []
  | (k0, v0) :: m, k => if k0 = k then aDel m k else (k0, v0) :: aDel m k

/-- Python `list(d.values())`. -/
def aValues {α : Type} (m : List (String × α)) : List α := m.map (·.2)

/-- `content.get(k)` on a JSON object (`None`, i.e. `none`, otherwise). -/
def jget? (v : JVal) (k : String) : Option JVal :=
  match v with
  | .obj kvs => aGet? kvs k
  | _ => none

/-- `content.get(k, d)`. -/
def jgetD (v : JVal) (k : String) (d : JVal) : JVal :=
  (jget? v k).getD d

/-- Read a string-valued field with a default; the repository only ever
applies this to fields that hold strings. -/
def jstrD (v? : Option JVal) (d : String) : String :=
  match v? with
  | some (.str s) => s
  | _ => d

/-- Python truthiness of a JSON value (`if not action`, `if mcp_server_2`,
`if data`, ...). -/
def JVal.falsy : JVal → Bool
  | .null => true
  | .bool b => !b
  | .str s => s = ""
  | .num n => n = 0
  | .arr xs => xs.isEmpty
  | .obj kvs => kvs.isEmpty

/-- Truthiness of `d.get(k)`: a missing key yields `None`, which is falsy. -/
def jfalsyOpt : Option JVal → Bool
  | none => true
  | some v => v.falsy

namespace Registry

/-- `ServiceType` enum of `registry-service/app/models.py`. -/
inductive ServiceType where
  | mcp
  | rest
  | graphql
deriving DecidableEq, Repr

/-- `ServiceType(value)`: the pydantic/enum constructor used by the
`GET /registry/services` handler; raises `ValueError` (here `none`) on any
value other than the three members. -/
def ServiceType.ofString : String → Option ServiceType
  | "mcp" => some .mcp
  | "rest" => some .rest
  | "graphql" => some .graphql
  | _ => none

/-- `ServiceStatus` enum. -/
inductive ServiceStatus where
  | online
  | offline
  | degraded
deriving DecidableEq, Repr

/-- `ServiceRegistration` request model (caller-supplied fields). -/
structure ServiceRegistration where
  name : String
  url : String
  type : ServiceType
  capabilities : List String
deriving DecidableEq, Repr

/-- `RegisteredService` descriptor.  `last_seen` (`datetime`) is embedded as
a `Nat` timestamp. -/
structure RegisteredService where
  id : String
  name : String
  url : String
  type : ServiceType
  capabilities : List String
  status : ServiceStatus
  last_seen : Nat
deriving DecidableEq, Repr

/-- The `RegistryService` store: `self.services: Dict[str, RegisteredService]`,
embedded as an insertion-ordered association list. -/
structure RegistryService where
  services : List (String × RegisteredService)
deriving DecidableEq, Repr

/-- `RegistryService.register_service`.  The `uuid.uuid4()` result and the
`datetime.now()` reading are explicit parameters `newId` / `now`. -/
def register_service (s : RegistryService) (reg : ServiceRegistration)
    (newId : String) (now : Nat) : RegisteredService × RegistryService :=
  let svc : RegisteredService :=
    { id := newId, name := reg.name, url := reg.url, type := reg.type,
      capabilities := reg.capabilities, status := .online, last_seen := now }
  (svc, ⟨aSet s.services newId svc⟩)

/-- `RegistryService.deregister_service`. -/
def deregister_service (s : RegistryService) (sid : String) :
    Bool × RegistryService :=
  if aHas s.services sid then (true, ⟨aDel s.services sid⟩) else (false, s)

/-- `RegistryService.get_service`. -/
def get_service (s : RegistryService) (sid : String) :
    Option RegisteredService :=
  aGet? s.services sid

/-- `RegistryService.get_all_services`. -/
def get_all_services (s : RegistryService) : List RegisteredService :=
  aValues s.services

/-- `RegistryService.get_services_by_type`. -/
def get_services_by_type (s : RegistryService) (t : ServiceType) :
    List RegisteredService :=
  (aValues s.services).filter (fun svc => svc.type = t)

/-- `RegistryService.update_service_status` (status change also refreshes
`last_seen`). -/
def update_service_status (s : RegistryService) (sid : String)
    (st : ServiceStatus) (now : Nat) :
    Option RegisteredService × RegistryService :=
  match aGet? s.services sid with
  | some svc =>
    let svc' := { svc with status := st, last_seen := now }
    (some svc', ⟨aSet s.services sid svc'⟩)
  | none => (none, s)

/-- `RegistryService.heartbeat`: refresh `last_seen` only. -/
def heartbeat (s : RegistryService) (sid : String) (now : Nat) :
    Option RegisteredService × RegistryService :=
  match aGet? s.services sid with
  | some svc =>
    let svc' := { svc with last_seen := now }
    (some svc', ⟨aSet s.services sid svc'⟩)
  | none => (none, s)

/-- HTTP-level result of an endpoint: either a 2xx body or an
`HTTPException(status_code, detail)`. -/
inductive HResp (α : Type) where
  | ok (value : α)
  | err (status : Nat) (detail : String)
deriving DecidableEq, Repr

/-- `POST /registry/services/{id}/heartbeat` endpoint (`main.py`). -/
def service_heartbeat (s : RegistryService) (sid : String) (now : Nat) :
    HResp String × RegistryService :=
  let r := heartbeat s sid now
  match r.1 with
  | some _ => (.ok "Heartbeat received", r.2)
  | none => (.err 404 "Service not found", r.2)

/-- `DELETE /registry/services/{id}` endpoint. -/
def deregister_endpoint (s : RegistryService) (sid : String) :
    HResp String × RegistryService :=
  let r := deregister_service s sid
  if r.1 then (.ok "Service deregistered successfully", r.2)
  else (.err 404 "Service not found", r.2)

/-- `GET /registry/services[?type=T]` endpoint.  Mirrors the Python
`if type:` truthiness test: an absent parameter *or an empty string* skips
filtering entirely; otherwise an unknown value raises
`HTTPException(400, "Invalid service type: ...")`. -/
def get_all_endpoint (s : RegistryService) (t? : Option String) :
    HResp (List RegisteredService) × RegistryService :=
  match t? with
  | none => (.ok (get_all_services s), s)
  | some t =>
    if t = "" then (.ok (get_all_services s), s)
    else
      match ServiceType.ofString t with
      | some st => (.ok (get_services_by_type s st), s)
      | none => (.err 400 ("Invalid service type: " ++ t), s)

/-- One `register` call of a sequence: its registration payload plus the
uuid and clock reading the call consumes. -/
structure RegCall where
  reg : ServiceRegistration
  newId : String
  now : Nat

/-- The descriptor `register_service` builds for a call. -/
def descOf (c : RegCall) : RegisteredService :=
  { id := c.newId, name := c.reg.name, url := c.reg.url, type := c.reg.type,
    capabilities := c.reg.capabilities, status := .online, last_seen := c.now }

/-- A sequence of N `register` calls, returning the N descriptors and the
final store. -/
def registerMany (s : RegistryService) : List RegCall →
    List RegisteredService × RegistryService
  | [] => ([], s)
  | c :: cs =>
    let r := register_service s c.reg c.newId c.now
    let rest := registerMany r.2 cs
    (r.1 :: rest.1, rest.2)

end Registry

/-! String helpers embedding the Python `str` / `re` operations used by
`ActionDeterminer`'s parameter back-filling. -/

/-- `str.lower()` (the inputs involved are ASCII). -/
def pyLower (s : String) : String := s.map Char.toLower

/-- Does `pat` occur at the head of `l`? -/
def startsWithChars : List Char → List Char → Bool
  | [], _ => true
  | _ :: _, [] => false
  | p :: ps, c :: cs => p = c && startsWithChars ps cs

/-- Does `pat` occur anywhere in `l`?  (Matches Python `pat in s`,
including `"" in s` being true.) -/
def hasSubChars (pat : List Char) : List Char → Bool
  | [] => pat.isEmpty
  | c :: cs => startsWithChars pat (c :: cs) || hasSubChars pat cs

/-- Python `pat in hay` on strings. -/
def pyContainsB (hay pat : String) : Bool := hasSubChars pat.data hay.data

/-- Replace every (left-to-right, non-overlapping) occurrence of `pat`,
fuel-bounded; `pyReplace` supplies fuel `≥` the string length, which always
suffices. -/
def replaceChars (pat rep : List Char) : Nat → List Char → List Char
  | _, [] => []
  | 0, l => l
  | fuel + 1, c :: cs =>
    if pat ≠ [] && startsWithChars pat (c :: cs) then
      rep ++ replaceChars pat rep fuel (List.drop pat.length (c :: cs))
    else
      c :: replaceChars pat rep fuel cs

/-- Python `s.replace(pat, rep)` (the repository only replaces non-empty
literal phrases). -/
def pyReplace (s pat rep : String) : String :=
  if pat = "" then s else ⟨replaceChars pat.data rep.data s.data.length s.data⟩

/-- `\w` of Python `re` (letters, digits, underscore; ASCII suffices for the
embedded inputs). -/
def isWordChar (c : Char) : Bool := c.isAlphanum || c = '_'

/-- `\s` of Python `re`. -/
def isSpaceChar (c : Char) : Bool := c.isWhitespace

/-- Split off the maximal run of characters satisfying `pred`. -/
def takeRun (pred : Char → Bool) (l : List Char) : List Char × List Char :=
  (l.takeWhile pred, l.dropWhile pred)

/-- Case-insensitive literal match, returning the rest of the input. -/
def stripLit : List Char → List Char → Option (List Char)
  | [], rest => some rest
  | _ :: _, [] => none
  | p :: ps, c :: cs =>
    if p.toLower = c.toLower then stripLit ps cs else none

/-- Try to match `(?i)from\s+(\w+)\s+to\s+(\w+)` anchored at the start of
`l`.  Because `\w` and `\s` are disjoint, the greedy match is the maximal
runs taken here. -/
def fromToAt (l : List Char) : Option (String × String) :=
  match stripLit ['f', 'r', 'o', 'm'] l with
  | none => none
  | some r1 =>
    let sp1 := takeRun isSpaceChar r1
    if sp1.1.isEmpty then none else
    let w1 := takeRun isWordChar sp1.2
    if w1.1.isEmpty then none else
    let sp2 := takeRun isSpaceChar w1.2
    if sp2.1.isEmpty then none else
    match stripLit ['t', 'o'] sp2.2 with
    | none => none
    | some r2 =>
      let sp3 := takeRun isSpaceChar r2
      if sp3.1.isEmpty then none else
      let w2 := takeRun isWordChar sp3.2
      if w2.1.isEmpty then none else
      some (⟨w1.1⟩, ⟨w2.1⟩)

/-- `re.search` of the `from X to Y` pattern: try every start position. -/
def searchFromTo : List Char → Option (String × String)
  | [] => none
  | c :: cs =>
    match fromToAt (c :: cs) with
    | some r => some r
    | none => searchFromTo cs

/-- First lazy match `op (.*?) cl` (no newline inside), returning the
content, scanning start positions left to right like `re.search`. -/
def lazyBetween (op cl : Char) : List Char → Option (List Char)
  | [] => none
  | c :: cs =>
    if c = op then
      let inside := cs.takeWhile (fun x => x ≠ cl && x ≠ '\n')
      match cs.drop inside.length with
      | r :: _ => if r = cl then some inside else lazyBetween op cl cs
      | [] => lazyBetween op cl cs
    else lazyBetween op cl cs

/-- Remove every non-overlapping `op (.*?) cl` match
(`re.sub(r'\[.*?\]', '', text)` and the parenthesis variant); fuel-bounded
with fuel `≥` input length. -/
def removeDelimited (op cl : Char) : Nat → List Char → List Char
  | _, [] => []
  | 0, l => l
  | fuel + 1, c :: cs =>
    if c = op then
      let inside := cs.takeWhile (fun x => x ≠ cl && x ≠ '\n')
      match cs.drop inside.length with
      | r :: rs =>
        if r = cl then removeDelimited op cl fuel rs
        else c :: removeDelimited op cl fuel cs
      | [] => c :: removeDelimited op cl fuel cs
    else c :: removeDelimited op cl fuel cs

/-- String-level wrapper for `removeDelimited`. -/
def pyRemoveDelim (op cl : Char) (s : String) : String :=
  ⟨removeDelimited op cl s.data.length s.data⟩

/-- The opening brace character (written via its code point to keep brace
characters out of string literals). -/
def lbrace : Char := Char.ofNat 123

/-- The closing brace character. -/
def rbrace : Char := Char.ofNat 125

/-- `re.search(r'{.*}', text, re.DOTALL)`: greedy, so the span from the
first opening brace to the last closing brace after it, when one exists. -/
def braceSpan (s : String) : Option String :=
  match s.data.findIdx? (· = lbrace) with
  | none => none
  | some i =>
    let tail := s.data.drop i
    match tail.reverse.findIdx? (· = rbrace) with
    | none => none
    | some k =>
      let len := tail.length - k
      if 2 ≤ len then some ⟨tail.take len⟩ else none

namespace Classifier

/-- `self.service_capabilities["rest"]` of `ActionDeterminer`. -/
def restCaps : List String := ["generate_text", "summarize", "analyze_data"]

/-- `self.service_capabilities["graphql"]`. -/
def graphqlCaps : List String :=
  ["generate_text", "translate_text", "classify_text", "analyze_sentiment"]

/-- `self.service_capabilities[key]` (only accessed with validated keys). -/
def caps (serviceType : String) : List String :=
  if serviceType = "rest" then restCaps
  else if serviceType = "graphql" then graphqlCaps
  else []

/-- `self.service_capabilities["rest"] + self.service_capabilities["graphql"]`,
the membership list of the action-validation step (six distinct actions,
`generate_text` listed twice). -/
def allActions : List String := restCaps ++ graphqlCaps

/-- `_fallback_determination`: the unconditional default triple. -/
def fallbackTriple (input : String) : String × List (String × JVal) × String :=
  ("generate_text",
   [("prompt", .str input), ("max_tokens", .num 100)],
   "rest")

/-- The `"graphql" if service_type == "rest" else "rest"` switch. -/
def otherService (serviceType : String) : String :=
  if serviceType = "rest" then "graphql" else "rest"

/-- The validation chain of `determine_action` on the parsed `action` and
`service_type` values: action must be a known action string, service type
must be `rest`/`graphql`, and if the chosen service does not support the
action the other service is used when it does; `none` means the code falls
back.  Non-string JSON values fail the `in`-list membership tests exactly
like unknown strings do. -/
def resolveService (aj sj : JVal) : Option (String × String) :=
  match aj with
  | .str a =>
    if a ∈ allActions then
      match sj with
      | .str sv =>
        if sv ∈ ["rest", "graphql"] then
          if a ∈ caps sv then some (a, sv)
          else if a ∈ caps (otherService sv) then some (a, otherService sv)
          else none
        else none
      | _ => none
    else none
  | _ => none

/-- The phrase list of `_extract_text_for_translation`. -/
def translationPhrases : List String :=
  ["translate", "translation", "convert to", "in spanish", "in french",
   "in german", "in chinese", "in japanese", "in italian", "in russian",
   "from english to", "from spanish to", "from french to"]

/-- `_extract_text_for_translation` (each loop iteration lowers the current
text and strips one phrase, then the result is stripped). -/
def extractTextForTranslation (text : String) : String :=
  (translationPhrases.foldl (fun t p => pyReplace (pyLower t) p "") text).trim

/-- The language keyword map of `_extract_languages`, in source order. -/
def langMap : List (String × String) :=
  [("spanish", "es"), ("french", "fr"), ("german", "de"), ("italian", "it"),
   ("chinese", "zh"), ("japanese", "ja"), ("russian", "ru"),
   ("portuguese", "pt"), ("arabic", "ar"), ("hindi", "hi"),
   ("korean", "ko"), ("dutch", "nl")]

/-- The `for lang, code in lang_map.items()` loop: first language mentioned
as `in <lang>` or `to <lang>` wins, else the default target `es`. -/
def findLangCode (lower : String) : List (String × String) → String
  | [] => "es"
  | (lang, code) :: rest =>
    if pyContainsB lower ("in " ++ lang) || pyContainsB lower ("to " ++ lang)
    then code
    else findLangCode lower rest

/-- `_extract_languages`: the `from X to Y` regular expression, else the
keyword map with defaults `("en", "es")`. -/
def extractLanguages (text : String) : String × String :=
  match searchFromTo text.data with
  | some r => (pyLower r.1, pyLower r.2)
  | none => ("en", findLangCode (pyLower text) langMap)

/-- The phrase list of `_extract_text_for_classification`. -/
def classificationPhrases : List String :=
  ["classify", "categorize", "categorise", "sort", "group",
   "what category", "which category", "what type", "which type"]

/-- `_extract_text_for_classification`. -/
def extractTextForClassification (text : String) : String :=
  let t := classificationPhrases.foldl (fun t p => pyReplace (pyLower t) p "") text
  let t := pyRemoveDelim '[' ']' t
  let t := pyRemoveDelim '(' ')' t
  t.trim

/-- `', '.split` + `.strip()` of each category item. -/
def splitTrim (s : String) : List String := (s.splitOn ",").map String.trim

/-- `_extract_categories`: bracketed then parenthesised category lists. -/
def extractCategories (text : String) : List String :=
  (match lazyBetween '[' ']' text.data with
   | some inside => splitTrim ⟨inside⟩
   | none => []) ++
  (match lazyBetween '(' ')' text.data with
   | some inside => splitTrim ⟨inside⟩
   | none => [])

/-- The phrase list of `_extract_text_for_sentiment`. -/
def sentimentPhrases : List String :=
  ["sentiment", "feeling", "emotion", "tone", "attitude",
   "positive or negative", "mood", "opinion", "analyze"]

/-- `_extract_text_for_sentiment`. -/
def extractTextForSentiment (text : String) : String :=
  (sentimentPhrases.foldl (fun t p => pyReplace (pyLower t) p "") text).trim

/-- `_extract_json`: the greedy brace span fed to `json.loads`; `loads`
embeds `json.loads` (with `none` for a parse failure, matching the bare
`except: pass`). -/
def extract_json (loads : String → Option JVal) (text : String) :
    Option JVal :=
  match braceSpan text with
  | some sub => loads sub
  | none => none

/-- `params.get(k, d)` on the parameters dict. -/
def pGetD (p : List (String × JVal)) (k : String) (d : JVal) : JVal :=
  (aGet? p k).getD d

/-- The action-specific parameter back-filling of `determine_action`
(the `if action == ... and ... not in params` chain). -/
def backfill (loads : String → Option JVal) (input : String) (a : String)
    (p : List (String × JVal)) : List (String × JVal) :=
  if a = "generate_text" then
    if !aHas p "prompt" then
      let p := aSet p "prompt" (.str input)
      aSet p "max_tokens" (pGetD p "max_tokens" (.num 100))
    else p
  else if a = "summarize" then
    if !aHas p "text" then
      let p := aSet p "text" (.str input)
      aSet p "max_length" (pGetD p "max_length" (.num 100))
    else p
  else if a = "analyze_data" then
    let p :=
      if !aHas p "data" then
        aSet p "data"
          (match extract_json loads input with
           | some v => if v.falsy then .obj [] else v
           | none => .obj [])
      else p
    if !aHas p "query" then
      aSet p "query"
        (.str (if pyContainsB input "\x7b" then
                ((input.splitOn "\x7b").headD "").trim
               else input))
    else p
  else if a = "translate_text" then
    let p :=
      if !aHas p "text" then
        aSet p "text" (.str (extractTextForTranslation input))
      else p
    if !aHas p "source_language" || !aHas p "target_language" then
      let langs := extractLanguages input
      let p := aSet p "source_language" (pGetD p "source_language" (.str langs.1))
      aSet p "target_language" (pGetD p "target_language" (.str langs.2))
    else p
  else if a = "classify_text" then
    let p :=
      if !aHas p "text" then
        aSet p "text" (.str (extractTextForClassification input))
      else p
    if !aHas p "categories" then
      let cats := extractCategories input
      if !cats.isEmpty then aSet p "categories" (.arr (cats.map .str)) else p
    else p
  else if a = "analyze_sentiment" then
    if !aHas p "text" then
      aSet p "text" (.str (extractTextForSentiment input))
    else p
  else p

/-- Outcome of the backend call and JSON-extraction stages of
`determine_action`, at the boundary where the code hands strings to the
`re`/`json` libraries:
* `backendFailure` — the OpenAI/Ollama call raised or returned non-200
  (lines that call `_fallback_determination` directly);
* `noJson` — `re.search(r'\{[\s\S]*\}')` found no JSON in the reply;
* `regexFailed` — the cleaned JSON failed `json.loads` and the
  `action`/`service_type` regex extraction also failed;
* `regexExtracted` — `json.loads` failed but the regexes recovered both
  fields (parameters become `{}`);
* `parsed` — `json.loads` succeeded: the dict's `action` / `service_type`
  values (absent keys fall back to `result.get` defaults) and its
  `parameters` object (embedded as a dict, the code's implicit schema;
  `result.get("parameters", {})`). -/
inductive ClassifierInput where
  | backendFailure
  | noJson
  | regexFailed
  | regexExtracted (action service : String)
  | parsed (action? service? : Option JVal) (params : List (String × JVal))

/-- Validation plus parameter back-filling shared by the two parse paths. -/
def classifyValidated (loads : String → Option JVal) (input : String)
    (aj sj : JVal) (p : List (String × JVal)) :
    String × List (String × JVal) × String :=
  match resolveService aj sj with
  | none => fallbackTriple input
  | some r => (r.1, backfill loads input r.1 p, r.2)

/-- `ActionDeterminer.determine_action`: the backend reply processing,
validation chain, parameter back-filling and fallback policy.  `loads`
embeds `json.loads` for the nested `_extract_json` helper. -/
def determine_action (loads : String → Option JVal) (input : String) :
    ClassifierInput → String × List (String × JVal) × String
  | .backendFailure => fallbackTriple input
  | .noJson => fallbackTriple input
  | .regexFailed => fallbackTriple input
  | .regexExtracted a sv => classifyValidated loads input (.str a) (.str sv) []
  | .parsed a? s? p =>
    classifyValidated loads input (a?.getD (.str "generate_text"))
      (s?.getD (.str "rest")) p

end Classifier

mutual

/-- Python `repr` of a JSON-ish value (used through `str` in f-strings for
non-string values; the claims only exercise the scalar cases). -/
def pyRepr : JVal → String
  | .null => "None"
  | .bool true => "True"
  | .bool false => "False"
  | .str s => "\x27" ++ s ++ "\x27"
  | .num n => toString n
  | .arr xs => "[" ++ String.intercalate ", " (pyReprList xs) ++ "]"
  | .obj kvs => "\x7b" ++ String.intercalate ", " (pyReprKvs kvs) ++ "\x7d"

/-- `repr` of the elements of a list. -/
def pyReprList : List JVal → List String
  | [] => []
  | x :: xs => pyRepr x :: pyReprList xs

/-- `repr` of the entries of a dict. -/
def pyReprKvs : List (String × JVal) → List String
  | [] => []
  | (k, v) :: xs => ("\x27" ++ k ++ "\x27: " ++ pyRepr v) :: pyReprKvs xs

end

/-- Python `str(v)` as used in f-strings. -/
def pyToString : JVal → String
  | .str s => s
  | v => pyRepr v

/-- `str(content.get("action"))` where a missing key is `None`. -/
def pyToStringOpt : Option JVal → String
  | none => "None"
  | some v => pyToString v

/-- `TracingMiddleware.dispatch` / the `add_trace_id` middleware of
mcp-server-1: the trace identifier attached at ingress is the inbound
`X-Trace-ID` header when supplied, else a freshly generated uuid (`fresh`). -/
def ingress_trace (header? : Option String) (fresh : String) : String :=
  header?.getD fresh

namespace MCP1

/-- `MCPMessage` of mcp-server-1/mcp-server-2 (`models.py`); the
`message_id` default (`uuid.uuid4()`) is supplied by the builder. -/
structure MCPMessage where
  message_id : String
  source_id : String
  target_id : Option String := none
  content : JVal
  timestamp : Nat := 0

/-- The envelope `MCPClient.send_message` builds for the peer: a *new*
`MCPMessage` whose `message_id` is a freshly generated uuid (`freshId`),
not the caller's. -/
def mkForwardMessage (freshId sourceId targetId : String) (content : JVal)
    (ts : Nat) : MCPMessage :=
  { message_id := freshId, source_id := sourceId,
    target_id := some targetId, content := content, timestamp := ts }

/-- Outcome of one HTTP exchange of `RestApiClient.generate_text` with the
REST backend, at the boundary where the code hands control to `httpx`. -/
inductive RestOutcome where
  | ok (body : JVal)
  | badJson (msg : String)
  | httpFailed (status : Nat) (text : String)
  | timedOut (msg : String)
  | connectFailed (msg : String)
  | unexpected (msg : String)

/-- `RestApiClient.generate_text`: the dict returned for each outcome
(every non-`ok` branch returns `{"error": ..., "details": ...}` with the
literal error strings of the source). -/
def generate_text_result (baseUrl : String) : RestOutcome → JVal
  | .ok body => body
  | .badJson m =>
    .obj [("error", .str "Invalid response from REST API"),
          ("details", .str ("Failed to parse JSON response: " ++ m))]
  | .httpFailed st text =>
    .obj [("error", .str ("API request failed with status " ++ toString st)),
          ("details", .str text)]
  | .timedOut m =>
    .obj [("error", .str "REST API request timed out"),
          ("details", .str ("Request timed out after 120 seconds: " ++ m))]
  | .connectFailed m =>
    .obj [("error", .str "Failed to connect to REST API"),
          ("details", .str ("Connection error to " ++ baseUrl ++ ": " ++ m))]
  | .unexpected m =>
    .obj [("error", .str "Failed to connect to REST API"),
          ("details", .str ("Unexpected error: " ++ m))]

/-- The awaited results of the four `RestApiClient` calls the router can
make (each is total in the source: every exception is caught and converted
into a dict). -/
structure RestBackends where
  generate : JVal → JVal → JVal
  summarize : JVal → JVal → JVal
  analyze : JVal → JVal → JVal
  status : JVal

/-- The `next(s for s in mcp_servers if "GraphQL" in s.get("name", ""))`
predicate. -/
def isGqlPeer (p : JVal) : Bool :=
  pyContainsB (jstrD (jget? p "name") "") "GraphQL"

/-- The `determined_action` response field:
`action if "input" in message.content else None`. -/
def detField (origContent : JVal) (a? : Option JVal) : JVal :=
  if (jget? origContent "input").isSome then a?.getD .null else .null

/-- `{"action": action, **params}`. -/
def mkContent (a : String) (params : List (String × JVal)) : JVal :=
  .obj (params.foldl (fun m kv => aSet m kv.1 kv.2) [("action", .str a)])

/-- Lines 216–385 of `mcp-server-1/app/routers/mcp.py`: dispatch of the
(possibly classifier-rewritten) `content` on its `action`, calling the REST
backend and wrapping results/errors, with the unknown-action error payload
at the end.  `origContent` is `message.content` (used by the
`determined_action` field), `content` the current content dict. -/
def processContent (msgId : String) (origContent content : JVal)
    (traceId : String) (b : RestBackends) : JVal :=
  let a? := jget? content "action"
  match a? with
  | some (.str "generate_text") =>
    let result := b.generate (jgetD content "prompt" (.str ""))
      (jgetD content "max_tokens" (.num 100))
    match jget? result "error" with
    | some e =>
      .obj [("message_id", .str msgId),
            ("response", .obj [("text", .str ("Error: " ++ pyToString e)),
                               ("confidence", .num 0),
                               ("model_used", .str "error")]),
            ("error", e),
            ("details", jgetD result "details" (.str "")),
            ("determined_action", detField origContent a?),
            ("trace_id", .str traceId)]
    | none =>
      .obj [("message_id", .str msgId), ("response", result),
            ("determined_action", detField origContent a?),
            ("trace_id", .str traceId)]
  | some (.str "summarize") =>
    let result := b.summarize (jgetD content "text" (.str ""))
      (jgetD content "max_length" (.num 100))
    match jget? result "error" with
    | some e =>
      .obj [("message_id", .str msgId),
            ("response", .obj [("summary", .str ("Error: " ++ pyToString e)),
                               ("reduction_percentage", .num 0),
                               ("model_used", .str "error")]),
            ("error", e),
            ("details", jgetD result "details" (.str "")),
            ("determined_action", detField origContent a?),
            ("trace_id", .str traceId)]
    | none =>
      .obj [("message_id", .str msgId), ("response", result),
            ("determined_action", detField origContent a?),
            ("trace_id", .str traceId)]
  | some (.str "analyze_data") =>
    let result := b.analyze (jgetD content "query" (.str ""))
      (jgetD content "data" (.obj []))
    match jget? result "error" with
    | some e =>
      .obj [("message_id", .str msgId),
            ("response", .obj [("analysis", .str ("Error: " ++ pyToString e)),
                               ("insights", .arr []),
                               ("model_used", .str "error")]),
            ("error", e),
            ("details", jgetD result "details" (.str "")),
            ("determined_action", detField origContent a?),
            ("trace_id", .str traceId)]
    | none =>
      .obj [("message_id", .str msgId), ("response", result),
            ("determined_action", detField origContent a?),
            ("trace_id", .str traceId)]
  | some (.str "get_status") =>
    .obj [("message_id", .str msgId), ("response", b.status),
          ("trace_id", .str traceId)]
  | other =>
    .obj [("message_id", .str msgId),
          ("error", .str ("Unknown action: " ++ pyToStringOpt other)),
          ("trace_id", .str traceId)]

/-- The classification branch of `receive_message` (free-form `input`
present, no truthy `action`): run the classifier, forward to the first
registered GraphQL-named peer that has a truthy id when the classifier
resolved to `graphql`, else fall back to local REST handling of the
determined action (`service_type = "rest"` plus the rewritten content). -/
def classifyAndRoute (msg : MCPMessage) (traceId userInput : String)
    (oracle : Classifier.ClassifierInput) (loads : String → Option JVal)
    (peers : List JVal) (forwardResult : JVal) (b : RestBackends) : JVal :=
  let r := Classifier.determine_action loads userInput oracle
  let newContent := mkContent r.1 r.2.1
  if r.2.2 = "graphql" then
    match peers.find? isGqlPeer with
    | some p =>
      if !p.falsy && !jfalsyOpt (jget? p "id") then
        .obj [("message_id", .str msg.message_id),
              ("response", forwardResult),
              ("determined_action", .str r.1),
              ("service_type", .str r.2.2),
              ("trace_id", .str traceId)]
      else processContent msg.message_id msg.content newContent traceId b
    | none => processContent msg.message_id msg.content newContent traceId b
  else processContent msg.message_id msg.content newContent traceId b

/-- `receive_message` of mcp-server-1 (`POST /message`).  Parameters embed
the request environment: `traceId` is `request.state.trace_id` (set by the
middleware from the `X-Trace-ID` header or freshly generated), `oracle` the
backend-reply outcome consumed by the classifier, `peers` the registry's
answer to `get_mcp_servers()`, `forwardResult` the dict
`MCPClient.send_message` returns if forwarding happens (that call never
raises), and `b` the REST client results.  `Except.error` is the
`HTTPException(500, ...)` path, reached when the free-form `input` value is
not a string (the classifier then raises on it). -/
def receive_message (msg : MCPMessage) (traceId : String)
    (oracle : Classifier.ClassifierInput) (loads : String → Option JVal)
    (peers : List JVal) (forwardResult : JVal) (b : RestBackends) :
    Except Unit JVal :=
  if jfalsyOpt (jget? msg.content "action") then
    match jget? msg.content "input" with
    | some (.str s) =>
      .ok (classifyAndRoute msg traceId s oracle loads peers forwardResult b)
    | some _ => .error ()
    | none =>
      .ok (processContent msg.message_id msg.content msg.content traceId b)
  else
    .ok (processContent msg.message_id msg.content msg.content traceId b)

end MCP1

namespace MCP2

/-- The awaited results of the `GraphQLClient` calls of mcp-server-2 (each
total in the source: exceptions are converted into dicts). -/
structure GqlBackends where
  generate : JVal → JVal → JVal
  translate : JVal → JVal → JVal → JVal
  classify : JVal → JVal → JVal
  sentiment : JVal → JVal
  status : JVal

/-- `receive_message` of mcp-server-2 (`POST /mcp/message`).  Note that no
response payload of this router carries a `trace_id` field, and the app
installs no tracing middleware. -/
def receive_message (msg : MCP1.MCPMessage) (g : GqlBackends) : JVal :=
  let content := msg.content
  match jget? content "action" with
  | some (.str "generate_text") =>
    .obj [("message_id", .str msg.message_id),
          ("response", g.generate (jgetD content "prompt" (.str ""))
            (jgetD content "max_tokens" (.num 100)))]
  | some (.str "translate_text") =>
    .obj [("message_id", .str msg.message_id),
          ("response", g.translate (jgetD content "text" (.str ""))
            (jgetD content "source_language" (.str "en"))
            (jgetD content "target_language" (.str "es")))]
  | some (.str "classify_text") =>
    .obj [("message_id", .str msg.message_id),
          ("response", g.classify (jgetD content "text" (.str ""))
            (jgetD content "categories" .null))]
  | some (.str "analyze_sentiment") =>
    .obj [("message_id", .str msg.message_id),
          ("response", g.sentiment (jgetD content "text" (.str "")))]
  | some (.str "get_status") =>
    .obj [("message_id", .str msg.message_id), ("response", g.status)]
  | other =>
    .obj [("message_id", .str msg.message_id),
          ("error", .str ("Unknown action: " ++ pyToStringOpt other))]

end MCP2

/-! Association-list (Python dict) lemmas. -/

theorem aGet?_aSetIn_self {α : Type} (m : List (String × α)) (k : String)
    (v : α) (h : aHas m k = true) : aGet? (aSetIn m k v) k = some v := by
  induction m with
  | nil => simp [aHas, aGet?] at h
  | cons hd tl ih =>
    obtain ⟨k0, v0⟩ := hd
    by_cases hk : k0 = k
    · subst hk
      simp [aSetIn, aGet?]
    · have h' : aHas tl k = true := by
        simpa [aHas, aGet?, hk] using h
      simp [aSetIn, aGet?, hk, ih h']

theorem aGet?_aSetIn_other {α : Type} (m : List (String × α)) (k : String)
    (v : α) (k' : String) (h : k' ≠ k) :
    aGet? (aSetIn m k v) k' = aGet? m k' := by
  have h' : ¬(k = k') := fun hh => h hh.symm
  induction m with
  | nil => rfl
  | cons hd tl ih =>
    obtain ⟨k0, v0⟩ := hd
    by_cases hk : k0 = k
    · subst hk
      simp [aSetIn, aGet?, h', ih]
    · simp [aSetIn, aGet?, hk, ih]

theorem aGet?_append_self {α : Type} (m : List (String × α)) (k : String)
    (v : α) (h : aGet? m k = none) :
    aGet? (m ++ [(k, v)]) k = some v := by
  induction m with
  | nil => simp [aGet?]
  | cons hd tl ih =>
    obtain ⟨k0, v0⟩ := hd
    by_cases hk : k0 = k
    · simp [aGet?, hk] at h
    · simp only [aGet?, List.cons_append, hk, if_neg hk] at h ⊢
      exact ih h

theorem aGet?_append_other {α : Type} (m : List (String × α)) (k : String)
    (v : α) (k' : String) (h : k' ≠ k) :
    aGet? (m ++ [(k, v)]) k' = aGet? m k' := by
  have h' : ¬(k = k') := fun hh => h hh.symm
  induction m with
  | nil => simp [aGet?, h']
  | cons hd tl ih =>
    obtain ⟨k0, v0⟩ := hd
    by_cases hk' : k0 = k'
    · simp [aGet?, hk']
    · simp [aGet?, hk', ih]

theorem aGet?_aSet_self {α : Type} (m : List (String × α)) (k : String)
    (v : α) : aGet? (aSet m k v) k = some v := by
  by_cases h : aHas m k
  · simp [aSet, h, aGet?_aSetIn_self m k v h]
  · have h' : aGet? m k = none := by
      simpa [aHas, Option.isSome_iff_ne_none] using h
    simp [aSet, h, aGet?_append_self m k v h']

theorem aGet?_aSet_other {α : Type} (m : List (String × α)) (k : String)
    (v : α) (k' : String) (h : k' ≠ k) :
    aGet? (aSet m k v) k' = aGet? m k' := by
  by_cases hh : aHas m k
  · simp [aSet, hh, aGet?_aSetIn_other m k v k' h]
  · simp [aSet, hh, aGet?_append_other m k v k' h]

theorem aGet?_aDel_self {α : Type} (m : List (String × α)) (k : String) :
    aGet? (aDel m k) k = none := by
  induction m with
  | nil => rfl
  | cons hd tl ih =>
    obtain ⟨k0, v0⟩ := hd
    by_cases hk : k0 = k
    · simp [aDel, hk, ih]
    · simp [aDel, aGet?, hk, ih]

theorem aGet?_aDel_other {α : Type} (m : List (String × α)) (k : String)
    (k' : String) (h : k' ≠ k) :
    aGet? (aDel m k) k' = aGet? m k' := by
  have h' : ¬(k = k') := fun hh => h hh.symm
  induction m with
  | nil => rfl
  | cons hd tl ih =>
    obtain ⟨k0, v0⟩ := hd
    by_cases hk : k0 = k
    · subst hk
      simp [aDel, aGet?, h', ih]
    · simp [aDel, aGet?, hk, ih]

theorem aValues_append {α : Type} (m1 m2 : List (String × α)) :
    aValues (m1 ++ m2) = aValues m1 ++ aValues m2 := by
  simp [aValues]

open Registry

/-- C4: for a registered id, `heartbeat(id)` returns the descriptor with
`last_seen` set to the (strictly later, when the clock advanced) reading
`now` and every other field — in particular `status` — unchanged, updates
only that entry of the store, and leaves every other id's lookup
unchanged; for an unknown id it returns no descriptor, leaves the store
exactly unchanged, and the HTTP endpoint reports 404 not-found. -/
theorem c4_theorem (s : RegistryService) (sid : String) (now : Nat) :
    (∀ svc, get_service s sid = some svc →
      (heartbeat s sid now).1 = some { svc with last_seen := now }
      ∧ ({ svc with last_seen := now } : RegisteredService).status = svc.status
      ∧ ({ svc with last_seen := now } : RegisteredService).id = svc.id
      ∧ ({ svc with last_seen := now } : RegisteredService).name = svc.name
      ∧ ({ svc with last_seen := now } : RegisteredService).url = svc.url
      ∧ ({ svc with last_seen := now } : RegisteredService).type = svc.type
      ∧ ({ svc with last_seen := now } : RegisteredService).capabilities
          = svc.capabilities
      ∧ (svc.last_seen < now →
          svc.last_seen < ({ svc with last_seen := now } : RegisteredService).last_seen)
      ∧ get_service (heartbeat s sid now).2 sid = some { svc with last_seen := now }
      ∧ (∀ sid2, sid2 ≠ sid →
          get_service (heartbeat s sid now).2 sid2 = get_service s sid2)
      ∧ (service_heartbeat s sid now).1 = .ok "Heartbeat received")
    ∧ (get_service s sid = none →
      heartbeat s sid now = (none, s)
      ∧ service_heartbeat s sid now = (.err 404 "Service not found", s)) := by
  constructor
  · intro svc h
    have hb : heartbeat s sid now
        = (some { svc with last_seen := now },
           ⟨aSet s.services sid { svc with last_seen := now }⟩) := by
      unfold heartbeat
      rw [show aGet? s.services sid = some svc from h]
    refine ⟨by rw [hb], rfl, rfl, rfl, rfl, rfl, rfl, fun hlt => hlt, ?_, ?_, ?_⟩
    · rw [hb]
      exact aGet?_aSet_self s.services sid _
    · intro sid2 hne
      rw [hb]
      exact aGet?_aSet_other s.services sid _ sid2 hne
    · unfold service_heartbeat
      rw [hb]
  · intro h
    have hb : heartbeat s sid now = (none, s) := by
      unfold heartbeat
      rw [show aGet? s.services sid = none from h]
    refine ⟨hb, ?_⟩
    unfold service_heartbeat
    rw [hb]

/-- A one-entry store used to exercise `c4_theorem` concretely. -/
def c4Store : Registry.RegistryService :=
  ⟨[("a", ⟨"a", "svc-a", "http://a", .mcp, ["x"], .online, 0⟩)]⟩

/-- Witness for C4: applying `c4_theorem` to the concrete one-entry store,
with the clock advanced from 0 to 5, and to the unknown id `"b"`. -/
theorem c4_witness :
    (Registry.heartbeat c4Store "a" 5).1
      = some ⟨"a", "svc-a", "http://a", .mcp, ["x"], .online, 5⟩
    ∧ (0 : Nat) < (5 : Nat)
    ∧ Registry.service_heartbeat c4Store "b" 5
      = (.err 404 "Service not found", c4Store) := by
  have h := c4_theorem c4Store "a" 5
  have h1 := h.1 ⟨"a", "svc-a", "http://a", .mcp, ["x"], .online, 0⟩ rfl
  exact ⟨h1.1, h1.2.2.2.2.2.2.2.1 (by decide),
         ((c4_theorem c4Store "b" 5).2 rfl).2⟩

/-- C6: deregistering a registered id returns `true`, makes a subsequent
`get` of that id absent, and leaves every other id's lookup unchanged (the
endpoint answers 200); deregistering an unknown id returns `false`, mapped
to 404 by the endpoint, and the store is exactly unchanged. -/
theorem c6_theorem (s : RegistryService) (sid : String) :
    (∀ svc, get_service s sid = some svc →
      (deregister_service s sid).1 = true
      ∧ get_service (deregister_service s sid).2 sid = none
      ∧ (∀ sid2, sid2 ≠ sid →
          get_service (deregister_service s sid).2 sid2 = get_service s sid2)
      ∧ (deregister_endpoint s sid).1 = .ok "Service deregistered successfully")
    ∧ (get_service s sid = none →
      deregister_service s sid = (false, s)
      ∧ deregister_endpoint s sid = (.err 404 "Service not found", s)) := by
  constructor
  · intro svc h
    have hhas : aHas s.services sid = true := by
      unfold aHas
      rw [show aGet? s.services sid = some svc from h]
      rfl
    have hd : deregister_service s sid = (true, ⟨aDel s.services sid⟩) := by
      unfold deregister_service
      rw [hhas]
      rfl
    refine ⟨by rw [hd], ?_, ?_, ?_⟩
    · rw [hd]
      exact aGet?_aDel_self s.services sid
    · intro sid2 hne
      rw [hd]
      exact aGet?_aDel_other s.services sid sid2 hne
    · unfold deregister_endpoint
      rw [hd]
      rfl
  · intro h
    have hhas : aHas s.services sid = false := by
      unfold aHas
      rw [show aGet? s.services sid = none from h]
      rfl
    have hd : deregister_service s sid = (false, s) := by
      unfold deregister_service
      rw [hhas]
      rfl
    refine ⟨hd, ?_⟩
    unfold deregister_endpoint
    rw [hd]
    rfl

/-- A two-entry store used to exercise `c6_theorem` concretely. -/
def c6Store : Registry.RegistryService :=
  ⟨[("a", ⟨"a", "svc-a", "http://a", .mcp, [], .online, 0⟩),
    ("b", ⟨"b", "svc-b", "http://b", .rest, [], .online, 0⟩)]⟩

/-- Witness for C6: applying `c6_theorem` to a concrete two-entry store at
the registered id `"a"` and the unknown id `"zz"`. -/
theorem c6_witness :
    (Registry.deregister_service c6Store "a").1 = true
    ∧ Registry.get_service (Registry.deregister_service c6Store "a").2 "a" = none
    ∧ Registry.get_service (Registry.deregister_service c6Store "a").2 "b"
      = Registry.get_service c6Store "b"
    ∧ Registry.deregister_endpoint c6Store "zz"
      = (.err 404 "Service not found", c6Store) := by
  have h := (c6_theorem c6Store "a").1
    ⟨"a", "svc-a", "http://a", .mcp, [], .online, 0⟩ rfl
  exact ⟨h.1, h.2.1, h.2.2.1 "b" (by decide),
         ((c6_theorem c6Store "zz").2 rfl).2⟩

/-- C9: `get_services_by_type` returns exactly the registered descriptors
whose `type` field equals the requested type — membership in the result is
equivalent to membership in the store with that type — and returns the
empty list when no stored descriptor has that type. -/
theorem c9_theorem (s : RegistryService) (t : ServiceType) :
    (∀ svc, svc ∈ get_services_by_type s t ↔
      (svc ∈ get_all_services s ∧ svc.type = t))
    ∧ ((∀ svc ∈ get_all_services s, svc.type ≠ t) →
      get_services_by_type s t = []) := by
  constructor
  · intro svc
    simp [get_services_by_type, get_all_services, List.mem_filter]
  · intro h
    unfold get_services_by_type
    rw [List.filter_eq_nil_iff]
    intro svc hm
    simpa using h svc hm

/-- A mixed-type store used to exercise `c9_theorem` concretely. -/
def c9Store : Registry.RegistryService :=
  ⟨[("a", ⟨"a", "svc-a", "http://a", .mcp, [], .online, 0⟩),
    ("b", ⟨"b", "svc-b", "http://b", .rest, [], .online, 0⟩),
    ("c", ⟨"c", "svc-c", "http://c", .mcp, [], .online, 0⟩)]⟩

/-- Witness for C9: applying `c9_theorem` to a concrete mixed-type store,
for a member descriptor, plus the zero-match case. -/
theorem c9_witness :
    ((⟨"b", "svc-b", "http://b", .rest, [], .online, 0⟩ : Registry.RegisteredService)
        ∈ Registry.get_services_by_type c9Store .rest
      ↔ ((⟨"b", "svc-b", "http://b", .rest, [], .online, 0⟩ : Registry.RegisteredService)
          ∈ Registry.get_all_services c9Store
        ∧ (⟨"b", "svc-b", "http://b", .rest, [], .online, 0⟩ : Registry.RegisteredService).type = .rest))
    ∧ Registry.get_services_by_type c9Store .graphql = [] := by
  refine ⟨(c9_theorem c9Store .rest).1 _, (c9_theorem c9Store .graphql).2 ?_⟩
  intro svc hm
  simp only [c9Store, get_all_services, aValues, List.map_cons, List.map_nil,
    List.mem_cons, List.not_mem_nil, or_false] at hm
  rcases hm with rfl | rfl | rfl <;> decide

/-- C10 counterexample: a `GET /registry/services` request carrying the
type query parameter `""` — not one of the three known service types — is
answered with the full unfiltered 200 list (here a one-element list, not an
empty one and not a 400 error), because the handler's `if type:` treats the
empty string as falsy. -/
theorem c10_counterexample :
    ServiceType.ofString "" = none
    ∧ (get_all_endpoint ⟨[("a", ⟨"a", "svc-a", "http://a", .mcp, [], .online, 0⟩)]⟩
        (some "")).1
      = .ok [⟨"a", "svc-a", "http://a", .mcp, [], .online, 0⟩] :=
  ⟨rfl, rfl⟩

/-- C10 (amended): a *non-empty* type parameter outside the three known
service types yields a 400 `Invalid service type` error with the store
unchanged; a known type yields the filtered list; the empty-string
parameter is treated like an absent one and yields the full list. -/
theorem c10_theorem (s : RegistryService) (t : String) :
    (t ≠ "" → ServiceType.ofString t = none →
      get_all_endpoint s (some t)
        = (.err 400 ("Invalid service type: " ++ t), s))
    ∧ (∀ st, ServiceType.ofString t = some st →
      get_all_endpoint s (some t) = (.ok (get_services_by_type s st), s))
    ∧ get_all_endpoint s (some "") = (.ok (get_all_services s), s) := by
  refine ⟨?_, ?_, ?_⟩
  · intro hne hbad
    simp only [get_all_endpoint]
    rw [if_neg hne, hbad]
  · intro st hok
    have hne : t ≠ "" := by
      intro he
      rw [he] at hok
      exact Option.noConfusion hok
    simp only [get_all_endpoint]
    rw [if_neg hne, hok]
  · rfl

/-- Witness for C10: applying `c10_theorem` to the empty store with the
unknown non-empty type `"bogus"` and the known type `"mcp"`. -/
theorem c10_witness :
    Registry.get_all_endpoint ⟨[]⟩ (some "bogus")
      = (.err 400 "Invalid service type: bogus", (⟨[]⟩ : Registry.RegistryService))
    ∧ Registry.get_all_endpoint ⟨[]⟩ (some "mcp")
      = (.ok [], (⟨[]⟩ : Registry.RegistryService)) :=
  ⟨(c10_theorem ⟨[]⟩ "bogus").1 (by decide) rfl,
   (c10_theorem ⟨[]⟩ "mcp").2.1 .mcp rfl⟩

/-- `register_service` on an id that is fresh for the store appends the new
entry (helper for C5). -/
theorem register_call_fresh (s : RegistryService) (c : RegCall)
    (h : get_service s c.newId = none) :
    register_service s c.reg c.newId c.now
      = (descOf c, ⟨s.services ++ [(c.newId, descOf c)]⟩) := by
  have hhas : aHas s.services c.newId = false := by
    unfold aHas
    rw [show aGet? s.services c.newId = none from h]
    rfl
  simp [register_service, aSet, descOf, hhas]

/-- Induction core for C5: under pairwise-distinct fresh ids, a register
sequence returns exactly the built descriptors and appends them to the
store contents. -/
theorem registerMany_spec (calls : List RegCall) : ∀ (s : RegistryService),
    (calls.map RegCall.newId).Nodup →
    (∀ c ∈ calls, get_service s c.newId = none) →
    (registerMany s calls).1 = calls.map descOf
    ∧ get_all_services (registerMany s calls).2
      = get_all_services s ++ calls.map descOf := by
  induction calls with
  | nil =>
    intro s _ _
    exact ⟨rfl, by simp [registerMany]⟩
  | cons c cs ih =>
    intro s hnodup hfresh
    have hfc : get_service s c.newId = none := hfresh c (List.mem_cons_self c cs)
    have hreg := register_call_fresh s c hfc
    rw [show (c :: cs).map RegCall.newId = c.newId :: cs.map RegCall.newId from rfl]
      at hnodup
    obtain ⟨hnotmem, hnodup'⟩ := List.nodup_cons.mp hnodup
    have hfresh' : ∀ c' ∈ cs,
        get_service (⟨s.services ++ [(c.newId, descOf c)]⟩ : RegistryService)
          c'.newId = none := by
      intro c' hc'
      have hne : c'.newId ≠ c.newId := by
        intro he
        exact hnotmem (he ▸ List.mem_map_of_mem RegCall.newId hc')
      show aGet? (s.services ++ [(c.newId, descOf c)]) c'.newId = none
      rw [aGet?_append_other s.services c.newId (descOf c) c'.newId hne]
      exact hfresh c' (List.mem_cons_of_mem c hc')
    have ihr := ih ⟨s.services ++ [(c.newId, descOf c)]⟩ hnodup' hfresh'
    have hrm : registerMany s (c :: cs)
        = ((register_service s c.reg c.newId c.now).1
            :: (registerMany (register_service s c.reg c.newId c.now).2 cs).1,
           (registerMany (register_service s c.reg c.newId c.now).2 cs).2) := rfl
    rw [hrm, hreg]
    constructor
    · simp [ihr.1]
    · rw [ihr.2]
      show aValues (s.services ++ [(c.newId, descOf c)]) ++ cs.map descOf
          = aValues s.services ++ (c :: cs).map descOf
      rw [aValues_append]
      simp [aValues]

/-- C5: a sequence of N `register` calls on an arbitrary initial store —
with the generated uuids pairwise distinct and fresh, which is what
`uuid.uuid4()` provides — returns exactly the N descriptors built from the
registrations (so each has status ONLINE and `last_seen` equal to its
registration-time clock reading), their ids are pairwise distinct, and
`listAll` afterwards returns exactly the prior contents extended by those N
descriptors (list equality, hence set equality irrespective of order). -/
theorem c5_theorem (s : RegistryService) (calls : List RegCall)
    (hnodup : (calls.map RegCall.newId).Nodup)
    (hfresh : ∀ c ∈ calls, get_service s c.newId = none) :
    (registerMany s calls).1 = calls.map descOf
    ∧ (∀ d ∈ (registerMany s calls).1, d.status = .online)
    ∧ ((registerMany s calls).1.map RegisteredService.id).Nodup
    ∧ get_all_services (registerMany s calls).2
      = get_all_services s ++ (registerMany s calls).1 := by
  obtain ⟨h1, h2⟩ := registerMany_spec calls s hnodup hfresh
  refine ⟨h1, ?_, ?_, ?_⟩
  · intro d hd
    rw [h1] at hd
    obtain ⟨c, _, rfl⟩ := List.mem_map.mp hd
    rfl
  · rw [h1, List.map_map]
    rw [show RegisteredService.id ∘ descOf = RegCall.newId from funext (fun c => rfl)]
    exact hnodup
  · rw [h1]
    exact h2

/-- A one-entry starting store used to exercise `c5_theorem` concretely. -/
def c5Store : Registry.RegistryService :=
  ⟨[("z", ⟨"z", "old", "http://z", .graphql, [], .degraded, 7⟩)]⟩

/-- The two concrete register calls of the C5 witness. -/
def c5Calls : List Registry.RegCall :=
  [⟨⟨"n1", "http://u1", .mcp, []⟩, "a", 1⟩,
   ⟨⟨"n2", "http://u2", .rest, ["generate_text"]⟩, "b", 2⟩]

/-- Witness for C5: applying `c5_theorem` to a concrete store and two
register calls with distinct fresh uuids. -/
theorem c5_witness :
    (Registry.registerMany c5Store c5Calls).1
      = [⟨"a", "n1", "http://u1", .mcp, [], .online, 1⟩,
         ⟨"b", "n2", "http://u2", .rest, ["generate_text"], .online, 2⟩]
    ∧ ((Registry.registerMany c5Store c5Calls).1.map
        Registry.RegisteredService.id).Nodup
    ∧ Registry.get_all_services (Registry.registerMany c5Store c5Calls).2
      = Registry.get_all_services c5Store
        ++ (Registry.registerMany c5Store c5Calls).1 := by
  have h := c5_theorem c5Store c5Calls (by decide) (by decide)
  exact ⟨h.1, h.2.2.1, h.2.2.2⟩

/-- C2: whenever the reasoning backend call fails, no JSON can be found in
its reply, the cleaned JSON cannot be parsed (even by the regex recovery),
or the classification validation chain rejects the parsed values, the
Action Classifier returns exactly
`("generate_text", {prompt: <original input>, max_tokens: 100}, "rest")`.
`determine_action` is a total Lean function — mirroring the source, whose
`try/except` converts every internal exception into this same fallback —
so no exception reaches the caller. -/
theorem c2_theorem (loads : String → Option JVal) (input : String) :
    Classifier.determine_action loads input .backendFailure
      = Classifier.fallbackTriple input
    ∧ Classifier.determine_action loads input .noJson
      = Classifier.fallbackTriple input
    ∧ Classifier.determine_action loads input .regexFailed
      = Classifier.fallbackTriple input
    ∧ (∀ a sv, Classifier.resolveService (.str a) (.str sv) = none →
        Classifier.determine_action loads input (.regexExtracted a sv)
          = Classifier.fallbackTriple input)
    ∧ (∀ a? s? p,
        Classifier.resolveService (a?.getD (.str "generate_text"))
          (s?.getD (.str "rest")) = none →
        Classifier.determine_action loads input (.parsed a? s? p)
          = Classifier.fallbackTriple input)
    ∧ Classifier.fallbackTriple input
      = ("generate_text",
         [("prompt", .str input), ("max_tokens", .num 100)], "rest") := by
  refine ⟨rfl, rfl, rfl, ?_, ?_, rfl⟩
  · intro a sv h
    show Classifier.classifyValidated loads input (.str a) (.str sv) []
        = Classifier.fallbackTriple input
    simp only [Classifier.classifyValidated, h]
  · intro a? s? p h
    show Classifier.classifyValidated loads input
        (a?.getD (.str "generate_text")) (s?.getD (.str "rest")) p
        = Classifier.fallbackTriple input
    simp only [Classifier.classifyValidated, h]

/-- Witness for C2: applying `c2_theorem` with a backend failure, an
unknown-action regex extraction, and a parsed reply whose action value is
not even a string. -/
theorem c2_witness :
    Classifier.determine_action (fun _ => none) "hello there"
      .backendFailure = Classifier.fallbackTriple "hello there"
    ∧ Classifier.determine_action (fun _ => none) "hello there"
      (.regexExtracted "bogus_action" "rest")
      = Classifier.fallbackTriple "hello there"
    ∧ Classifier.determine_action (fun _ => none) "hello there"
      (.parsed (some (.num 3)) (some (.str "rest")) [])
      = Classifier.fallbackTriple "hello there" :=
  ⟨(c2_theorem (fun _ => none) "hello there").1,
   (c2_theorem (fun _ => none) "hello there").2.2.2.1 "bogus_action" "rest" rfl,
   (c2_theorem (fun _ => none) "hello there").2.2.2.2.1
     (some (.num 3)) (some (.str "rest")) [] rfl⟩

/-- C8: for a parsed backend reply whose action is one of the six known
actions and whose service type is `rest` or `graphql`, when the chosen
service's capability set does not contain the action the classifier keeps
the action and answers with the *other* service whenever that one supports
it, and returns the default fallback triple when neither capability set
contains the action. -/
theorem c8_theorem (loads : String → Option JVal) (input : String)
    (a sv : String) (p : List (String × JVal))
    (ha : a ∈ Classifier.allActions) (hsv : sv ∈ ["rest", "graphql"])
    (hnot : a ∉ Classifier.caps sv) :
    (a ∈ Classifier.caps (Classifier.otherService sv) →
      (Classifier.determine_action loads input
        (.parsed (some (.str a)) (some (.str sv)) p)).1 = a
      ∧ (Classifier.determine_action loads input
        (.parsed (some (.str a)) (some (.str sv)) p)).2.2
        = Classifier.otherService sv)
    ∧ (a ∉ Classifier.caps (Classifier.otherService sv) →
      Classifier.determine_action loads input
        (.parsed (some (.str a)) (some (.str sv)) p)
        = Classifier.fallbackTriple input) := by
  constructor
  · intro hother
    have hres : Classifier.resolveService (.str a) (.str sv)
        = some (a, Classifier.otherService sv) := by
      show (if a ∈ Classifier.allActions then
              if sv ∈ (["rest", "graphql"] : List String) then
                if a ∈ Classifier.caps sv then some (a, sv)
                else if a ∈ Classifier.caps (Classifier.otherService sv)
                  then some (a, Classifier.otherService sv)
                else none
              else none
            else none) = some (a, Classifier.otherService sv)
      rw [if_pos ha, if_pos hsv, if_neg hnot, if_pos hother]
    have hgoal : Classifier.determine_action loads input
        (.parsed (some (.str a)) (some (.str sv)) p)
        = (a, Classifier.backfill loads input a p,
           Classifier.otherService sv) := by
      show Classifier.classifyValidated loads input (.str a) (.str sv) p = _
      simp only [Classifier.classifyValidated, hres]
    rw [hgoal]
    exact ⟨rfl, rfl⟩
  · intro hother
    have hres : Classifier.resolveService (.str a) (.str sv) = none := by
      show (if a ∈ Classifier.allActions then
              if sv ∈ (["rest", "graphql"] : List String) then
                if a ∈ Classifier.caps sv then some (a, sv)
                else if a ∈ Classifier.caps (Classifier.otherService sv)
                  then some (a, Classifier.otherService sv)
                else none
              else none
            else none) = none
      rw [if_pos ha, if_pos hsv, if_neg hnot, if_neg hother]
    show Classifier.classifyValidated loads input (.str a) (.str sv) p
        = Classifier.fallbackTriple input
    simp only [Classifier.classifyValidated, hres]

/-- Witness for C8: `summarize` claimed for the graphql service is switched
to the rest service, which supports it. -/
theorem c8_witness :
    (Classifier.determine_action (fun _ => none) "please summarize this"
      (.parsed (some (.str "summarize")) (some (.str "graphql")) [])).1
      = "summarize"
    ∧ (Classifier.determine_action (fun _ => none) "please summarize this"
      (.parsed (some (.str "summarize")) (some (.str "graphql")) [])).2.2
      = Classifier.otherService "graphql" :=
  (c8_theorem (fun _ => none) "please summarize this" "summarize" "graphql" []
    (by decide) (by decide) (by decide)).1 (by decide)

/-- A string with a non-empty prefix is non-empty (helper for the
non-empty-error-field conclusions). -/
theorem str_append_ne_empty (a b : String) (h : 0 < a.length) :
    a ++ b ≠ "" := by
  intro he
  have hl := congrArg String.length he
  rw [String.length_append] at hl
  rw [show ("" : String).length = 0 from rfl] at hl
  omega

/-- `receive_message` with a truthy `action` field skips classification and
dispatches the original content (helper). -/
theorem receive_message_direct (msg : MCP1.MCPMessage) (traceId : String)
    (oracle : Classifier.ClassifierInput) (loads : String → Option JVal)
    (peers : List JVal) (fwd : JVal) (b : MCP1.RestBackends)
    (h : jfalsyOpt (jget? msg.content "action") = false) :
    MCP1.receive_message msg traceId oracle loads peers fwd b
      = .ok (MCP1.processContent msg.message_id msg.content msg.content
          traceId b) := by
  unfold MCP1.receive_message
  rw [h]
  rfl

/-- C3: a message carrying only free-form input whose classification
resolves to the GraphQL service, received when no GraphQL-named peer is
registered (or the one found has no truthy id), is not failed outright: the
dispatcher degrades to local REST handling of the determined action — the
content rewritten to `{"action": <determined>, **params}` — and returns
that response payload (an `Except.ok`, never an exception) to the caller. -/
theorem c3_theorem (msg : MCP1.MCPMessage) (traceId s : String)
    (oracle : Classifier.ClassifierInput) (loads : String → Option JVal)
    (peers : List JVal) (fwd : JVal) (b : MCP1.RestBackends)
    (hact : jfalsyOpt (jget? msg.content "action") = true)
    (hinp : jget? msg.content "input" = some (.str s))
    (hsvc : (Classifier.determine_action loads s oracle).2.2 = "graphql")
    (hpeer : ∀ p, peers.find? MCP1.isGqlPeer = some p →
        jfalsyOpt (jget? p "id") = true) :
    MCP1.receive_message msg traceId oracle loads peers fwd b
      = .ok (MCP1.processContent msg.message_id msg.content
          (MCP1.mkContent (Classifier.determine_action loads s oracle).1
            (Classifier.determine_action loads s oracle).2.1) traceId b) := by
  unfold MCP1.receive_message
  rw [hact, hinp]
  show Except.ok (MCP1.classifyAndRoute msg traceId s oracle loads peers fwd b)
      = _
  simp only [MCP1.classifyAndRoute]
  rw [hsvc, if_pos rfl]
  cases hfind : peers.find? MCP1.isGqlPeer with
  | none => rfl
  | some p =>
    have hid := hpeer p hfind
    dsimp only
    rw [hid]
    simp

/-- A concrete classifier outcome resolving to the GraphQL service, used by
the C3/C7 witnesses. -/
def gqlOracle : Classifier.ClassifierInput :=
  .parsed (some (.str "translate_text")) (some (.str "graphql")) []

/-- Witness for C3: a concrete input-only message classified to
`translate_text`/`graphql` with an empty peer list degrades to local
handling of the determined action. -/
theorem c3_witness :
    MCP1.receive_message ⟨"m1", "src", none, .obj [("input", .str "hola")], 0⟩
      "t0" gqlOracle (fun _ => none) [] .null
      ⟨fun _ _ => .null, fun _ _ => .null, fun _ _ => .null, .null⟩
      = .ok (MCP1.processContent "m1" (.obj [("input", .str "hola")])
          (MCP1.mkContent
            (Classifier.determine_action (fun _ => none) "hola" gqlOracle).1
            (Classifier.determine_action (fun _ => none) "hola" gqlOracle).2.1)
          "t0" ⟨fun _ _ => .null, fun _ _ => .null, fun _ _ => .null, .null⟩) :=
  c3_theorem ⟨"m1", "src", none, .obj [("input", .str "hola")], 0⟩ "t0" "hola"
    gqlOracle (fun _ => none) [] .null
    ⟨fun _ _ => .null, fun _ _ => .null, fun _ _ => .null, .null⟩
    rfl rfl (by decide) (fun p hp => by exact absurd hp (by simp))

/-- C7: a message carrying only free-form input whose classification
resolves to the GraphQL service, received while a GraphQL-named peer with a
truthy id is registered, is forwarded, and the payload returned to the
original caller carries the caller's own `messageId` (with the peer's reply
under `response`) — even though the envelope `send_message` builds for the
peer is a new one carrying a freshly generated message id. -/
theorem c7_theorem (msg : MCP1.MCPMessage) (traceId s : String)
    (oracle : Classifier.ClassifierInput) (loads : String → Option JVal)
    (peers : List JVal) (fwd : JVal) (b : MCP1.RestBackends) (p : JVal)
    (hact : jfalsyOpt (jget? msg.content "action") = true)
    (hinp : jget? msg.content "input" = some (.str s))
    (hsvc : (Classifier.determine_action loads s oracle).2.2 = "graphql")
    (hfind : peers.find? MCP1.isGqlPeer = some p)
    (hfalsy : p.falsy = false)
    (hid : jfalsyOpt (jget? p "id") = false) :
    (∃ payload,
      MCP1.receive_message msg traceId oracle loads peers fwd b
        = .ok payload
      ∧ jget? payload "message_id" = some (.str msg.message_id)
      ∧ jget? payload "response" = some fwd)
    ∧ (∀ freshId src tgt c ts,
        (MCP1.mkForwardMessage freshId src tgt c ts).message_id = freshId) := by
  constructor
  · refine ⟨.obj [("message_id", .str msg.message_id), ("response", fwd),
      ("determined_action",
        .str (Classifier.determine_action loads s oracle).1),
      ("service_type", .str "graphql"),
      ("trace_id", .str traceId)], ?_, ?_, ?_⟩
    · unfold MCP1.receive_message
      rw [hact, hinp]
      show Except.ok
          (MCP1.classifyAndRoute msg traceId s oracle loads peers fwd b) = _
      simp only [MCP1.classifyAndRoute]
      rw [hsvc, if_pos rfl, hfind]
      dsimp only
      rw [hfalsy, hid]
      simp
    · simp [jget?, aGet?]
    · simp [jget?, aGet?]
  · intro freshId src tgt c ts
    rfl

/-- The concrete GraphQL peer dict of the C7 witness. -/
def gqlPeer : JVal :=
  .obj [("name", .str "MCP Server 2 (GraphQL)"), ("id", .str "srv2")]

/-- Witness for C7: with the concrete GraphQL peer registered, the
forwarded request's response payload carries the caller's message id. -/
theorem c7_witness :
    (∃ payload,
      MCP1.receive_message ⟨"m1", "src", none, .obj [("input", .str "hola")], 0⟩
        "t0" gqlOracle (fun _ => none) [gqlPeer]
        (.obj [("translated_text", .str "hello")])
        ⟨fun _ _ => .null, fun _ _ => .null, fun _ _ => .null, .null⟩
        = .ok payload
      ∧ jget? payload "message_id" = some (.str "m1")
      ∧ jget? payload "response"
        = some (.obj [("translated_text", .str "hello")]))
    ∧ (∀ freshId src tgt c ts,
        (MCP1.mkForwardMessage freshId src tgt c ts).message_id = freshId) :=
  c7_theorem ⟨"m1", "src", none, .obj [("input", .str "hola")], 0⟩ "t0" "hola"
    gqlOracle (fun _ => none) [gqlPeer]
    (.obj [("translated_text", .str "hello")])
    ⟨fun _ _ => .null, fun _ _ => .null, fun _ _ => .null, .null⟩ gqlPeer
    rfl rfl (by decide) rfl rfl rfl

/-- C1 counterexample: an unknown-action request handled by the group-B
dispatcher (mcp-server-2) yields an error payload with a non-empty `error`
but *no* `trace_id` field at all (nor does that app install any tracing
middleware), refuting the claim that every component's error payload
carries the originating request's trace identifier. -/
theorem c1_counterexample :
    jget? (MCP2.receive_message
        ⟨"m1", "s1", none, .obj [("action", .str "foo")], 0⟩
        ⟨fun _ _ => .null, fun _ _ _ => .null, fun _ _ => .null,
         fun _ => .null, .null⟩) "error"
      = some (.str "Unknown action: foo")
    ∧ ("Unknown action: foo" ≠ "")
    ∧ jget? (MCP2.receive_message
        ⟨"m1", "s1", none, .obj [("action", .str "foo")], 0⟩
        ⟨fun _ _ => .null, fun _ _ _ => .null, fun _ _ => .null,
         fun _ => .null, .null⟩) "trace_id" = none :=
  ⟨rfl, by decide, rfl⟩

/-- C1 (amended): the trace id attached at ingress is the inbound header
when supplied, else the freshly generated one; error payloads built by the
group-A dispatcher (unknown action, backend error) carry a non-empty
`error` and a `trace_id` equal to that ingress trace id; the group-B
dispatcher's unknown-action error payload carries a non-empty `error` but
no `trace_id` field. -/
theorem c1_theorem :
    (∀ (hdr? : Option String) (fresh t : String),
      (hdr? = some t → ingress_trace hdr? fresh = t)
      ∧ (hdr? = none → ingress_trace hdr? fresh = fresh))
    ∧ (∀ (msg : MCP1.MCPMessage) (trace a : String)
        (oracle : Classifier.ClassifierInput) (loads : String → Option JVal)
        (peers : List JVal) (fwd : JVal) (b : MCP1.RestBackends),
        jget? msg.content "action" = some (.str a) → a ≠ "" →
        a ∉ (["generate_text", "summarize", "analyze_data", "get_status"]
          : List String) →
        MCP1.receive_message msg trace oracle loads peers fwd b
          = .ok (.obj [("message_id", .str msg.message_id),
                       ("error", .str ("Unknown action: " ++ a)),
                       ("trace_id", .str trace)])
        ∧ ("Unknown action: " ++ a) ≠ ""
        ∧ jget? (.obj [("message_id", .str msg.message_id),
                       ("error", .str ("Unknown action: " ++ a)),
                       ("trace_id", .str trace)]) "error"
            = some (.str ("Unknown action: " ++ a))
        ∧ jget? (.obj [("message_id", .str msg.message_id),
                       ("error", .str ("Unknown action: " ++ a)),
                       ("trace_id", .str trace)]) "trace_id"
            = some (.str trace))
    ∧ (∀ (msg : MCP1.MCPMessage) (trace base : String)
        (outcome : MCP1.RestOutcome) (oracle : Classifier.ClassifierInput)
        (loads : String → Option JVal) (peers : List JVal) (fwd : JVal)
        (b : MCP1.RestBackends),
        b.generate = (fun _ _ => MCP1.generate_text_result base outcome) →
        jget? msg.content "action" = some (.str "generate_text") →
        (∀ body, outcome ≠ .ok body) →
        ∃ e, MCP1.receive_message msg trace oracle loads peers fwd b
            = .ok (MCP1.processContent msg.message_id msg.content msg.content
                trace b)
          ∧ jget? (MCP1.processContent msg.message_id msg.content msg.content
              trace b) "error" = some (.str e)
          ∧ e ≠ ""
          ∧ jget? (MCP1.processContent msg.message_id msg.content msg.content
              trace b) "trace_id" = some (.str trace))
    ∧ (∀ (msg : MCP1.MCPMessage) (a : String) (g : MCP2.GqlBackends),
        jget? msg.content "action" = some (.str a) →
        a ∉ (["generate_text", "translate_text", "classify_text",
              "analyze_sentiment", "get_status"] : List String) →
        jget? (MCP2.receive_message msg g) "error"
          = some (.str ("Unknown action: " ++ a))
        ∧ ("Unknown action: " ++ a) ≠ ""
        ∧ jget? (MCP2.receive_message msg g) "trace_id" = none) := by
  refine ⟨?_, ?_, ?_, ?_⟩
  · intro hdr? fresh t
    constructor
    · intro h
      rw [h]
      rfl
    · intro h
      rw [h]
      rfl
  · intro msg trace a oracle loads peers fwd b hact hne hnot
    have hf : jfalsyOpt (jget? msg.content "action") = false := by
      rw [hact]
      simp [jfalsyOpt, JVal.falsy, hne]
    have hpc : MCP1.processContent msg.message_id msg.content msg.content
        trace b
        = .obj [("message_id", .str msg.message_id),
                ("error", .str ("Unknown action: " ++ a)),
                ("trace_id", .str trace)] := by
      unfold MCP1.processContent
      rw [hact]
      dsimp only
      split
      · simp_all
      · simp_all
      · simp_all
      · simp_all
      · simp [pyToStringOpt, pyToString]
    refine ⟨?_, str_append_ne_empty _ _ (by decide), by simp [jget?, aGet?],
      by simp [jget?, aGet?]⟩
    rw [receive_message_direct msg trace oracle loads peers fwd b hf, hpc]
  · intro msg trace base outcome oracle loads peers fwd b hb hact hnotok
    have hf : jfalsyOpt (jget? msg.content "action") = false := by
      rw [hact]
      rfl
    have hrm := receive_message_direct msg trace oracle loads peers fwd b hf
    cases outcome with
    | ok body => exact absurd rfl (hnotok body)
    | badJson m =>
      refine ⟨"Invalid response from REST API", hrm, ?_, by decide, ?_⟩
      all_goals
        simp only [MCP1.processContent, hact, hb, MCP1.generate_text_result]
        simp [jget?, aGet?, jgetD]
    | httpFailed st text =>
      refine ⟨"API request failed with status " ++ toString st, hrm, ?_,
        str_append_ne_empty _ _ (by decide), ?_⟩
      all_goals
        simp only [MCP1.processContent, hact, hb, MCP1.generate_text_result]
        simp [jget?, aGet?, jgetD]
    | timedOut m =>
      refine ⟨"REST API request timed out", hrm, ?_, by decide, ?_⟩
      all_goals
        simp only [MCP1.processContent, hact, hb, MCP1.generate_text_result]
        simp [jget?, aGet?, jgetD]
    | connectFailed m =>
      refine ⟨"Failed to connect to REST API", hrm, ?_, by decide, ?_⟩
      all_goals
        simp only [MCP1.processContent, hact, hb, MCP1.generate_text_result]
        simp [jget?, aGet?, jgetD]
    | unexpected m =>
      refine ⟨"Failed to connect to REST API", hrm, ?_, by decide, ?_⟩
      all_goals
        simp only [MCP1.processContent, hact, hb, MCP1.generate_text_result]
        simp [jget?, aGet?, jgetD]
  · intro msg a g hact hnot
    have hpc : MCP2.receive_message msg g
        = .obj [("message_id", .str msg.message_id),
                ("error", .str ("Unknown action: " ++ a))] := by
      unfold MCP2.receive_message
      dsimp only
      rw [hact]
      split
      · simp_all
      · simp_all
      · simp_all
      · simp_all
      · simp_all
      · simp [pyToStringOpt, pyToString]
    rw [hpc]
    exact ⟨by simp [jget?, aGet?], str_append_ne_empty _ _ (by decide),
      by simp [jget?, aGet?]⟩

/-- Trivial REST backends for the C1 witness (unknown-action path). -/
def c1BackA : MCP1.RestBackends :=
  ⟨fun _ _ => .null, fun _ _ => .null, fun _ _ => .null, .null⟩

/-- REST backends whose generate call timed out, for the C1 witness. -/
def c1BackB : MCP1.RestBackends :=
  ⟨fun _ _ => MCP1.generate_text_result "http://rest" (.timedOut "boom"),
   fun _ _ => .null, fun _ _ => .null, .null⟩

/-- Unknown-action message for the C1 witness (group-A dispatcher). -/
def c1MsgA : MCP1.MCPMessage := ⟨"m1", "s", none, .obj [("action", .str "fly")], 0⟩

/-- generate_text message for the C1 witness (backend-error path). -/
def c1MsgB : MCP1.MCPMessage :=
  ⟨"m2", "s", none, .obj [("action", .str "generate_text")], 0⟩

/-- Unknown-action message for the C1 witness (group-B dispatcher). -/
def c1MsgC : MCP1.MCPMessage := ⟨"m3", "s", none, .obj [("action", .str "zap")], 0⟩

/-- Trivial GraphQL backends for the C1 witness. -/
def c1Gql : MCP2.GqlBackends :=
  ⟨fun _ _ => .null, fun _ _ _ => .null, fun _ _ => .null,
   fun _ => .null, .null⟩

/-- Witness for C1 (amended): each part of `c1_theorem` applied at a
concrete input — a supplied header trace, an unknown action on the group-A
dispatcher, a timed-out backend call, and an unknown action on the group-B
dispatcher. -/
theorem c1_witness :
    ingress_trace (some "hdr-trace") "fresh-trace" = "hdr-trace"
    ∧ MCP1.receive_message c1MsgA "t1" .backendFailure (fun _ => none) []
        .null c1BackA
      = .ok (.obj [("message_id", .str "m1"),
                   ("error", .str "Unknown action: fly"),
                   ("trace_id", .str "t1")])
    ∧ (∃ e, MCP1.receive_message c1MsgB "t2" .backendFailure (fun _ => none)
          [] .null c1BackB
        = .ok (MCP1.processContent "m2" c1MsgB.content c1MsgB.content "t2"
            c1BackB)
        ∧ jget? (MCP1.processContent "m2" c1MsgB.content c1MsgB.content "t2"
            c1BackB) "error" = some (.str e)
        ∧ e ≠ ""
        ∧ jget? (MCP1.processContent "m2" c1MsgB.content c1MsgB.content "t2"
            c1BackB) "trace_id" = some (.str "t2"))
    ∧ jget? (MCP2.receive_message c1MsgC c1Gql) "trace_id" = none :=
  ⟨(c1_theorem.1 (some "hdr-trace") "fresh-trace" "hdr-trace").1 rfl,
   (c1_theorem.2.1 c1MsgA "t1" "fly" .backendFailure (fun _ => none) [] .null
      c1BackA rfl (by decide) (by decide)).1,
   c1_theorem.2.2.1 c1MsgB "t2" "http://rest" (.timedOut "boom")
     .backendFailure (fun _ => none) [] .null c1BackB rfl rfl
     (fun body h => MCP1.RestOutcome.noConfusion h),
   (c1_theorem.2.2.2 c1MsgC "zap" c1Gql rfl (by decide)).2.2⟩
